import Mathlib

/-!
# Bind resolution (`pw_verify.c`) and unique-id generation (`uniqueidgen.c`)

A shallow embedding of the two source files of the directory server's bind path.

* Pointers become `Option` values (`none` is `NULL`).
* Every call the C code makes to a collaborator that the properties talk about
  (mapping tree, backend lock, backend bind entry point, credential comparator,
  uuid primitive) is appended to an explicit trace of `Event`s, in program order,
  so that "is called", "is never called" and "is called before" are statements
  about that trace.
* Collaborators whose code is not part of the two files are fields of an
  environment record; nothing is assumed about them beyond their C signature.
* Logging calls (`slapi_log_err`) and memory disposal (`value_done`,
  `slapi_ch_free_string`, `PR_CloseDir`) have no influence on results and are
  left out of the model.
-/

namespace PwVerify

/-! ## Data model -/

/-- Modelled from the spec: the result-code macros returned by the three bind
helpers (`SLAPI_BIND_SUCCESS`, `SLAPI_BIND_ANONYMOUS`, `SLAPI_BIND_REFERRAL`,
`SLAPI_BIND_NO_BACKEND`, `LDAP_INVALID_CREDENTIALS`, `LDAP_OPERATIONS_ERROR`)
are declared in headers that are not among the source files.  The spec (section 3,
`BindOutcome`) gives them as a closed enumeration of six distinct outcomes; the
constructors keep the names the C code uses. -/
inductive BindRc
  | SLAPI_BIND_SUCCESS
  | SLAPI_BIND_ANONYMOUS
  | SLAPI_BIND_REFERRAL
  | SLAPI_BIND_NO_BACKEND
  | LDAP_INVALID_CREDENTIALS
  | LDAP_OPERATIONS_ERROR
  deriving DecidableEq, Repr

/-- A distinguished name held by the request (`Slapi_DN`), kept as its text. -/
abbrev Slapi_DN := String

/-- A directory entry used as a referral (`Slapi_Entry`), kept as its text. -/
abbrev Slapi_Entry := String

/-- A stored or provided attribute value (`Slapi_Value`), kept as its text. -/
abbrev Slapi_Value := String

/-- The credential of a bind request (`struct berval`): a length and the bytes. -/
structure berval where
  bv_len : Nat
  bv_val : List Nat
  deriving DecidableEq, Repr

/-- The part of `Slapi_Backend` that `pw_verify.c` reads.  `be_bind` is the
function pointer of the backend's bind entry point (`none` when it is `NULL`),
given as an address that the environment resolves to a behaviour;
`be_database` is the pointer to the backend's database plugin. -/
structure Slapi_Backend where
  be_name : String
  be_bind : Option Nat
  be_database : Nat
  deriving DecidableEq, Repr

/-- The slots of the parameter block that `pw_verify.c` reads or writes.
`result_handlers` stands for the slots written by
`set_db_default_result_handlers`. -/
structure Slapi_PBlock where
  SLAPI_BIND_TARGET_SDN : Option Slapi_DN
  SLAPI_BIND_CREDENTIALS : Option berval
  SLAPI_BIND_METHOD : Nat
  SLAPI_BACKEND : Option Slapi_Backend
  SLAPI_PLUGIN : Option Nat
  result_handlers : Nat
  deriving DecidableEq, Repr

/-- What `slapi_mapping_tree_select (pb, &be, referral, NULL, 0)` leaves behind:
its return code, the backend written to `be` (only read by the callers when the
return code is `LDAP_SUCCESS`), and the value written to `*referral`. -/
structure SelectResult where
  rc : Int
  be : Slapi_Backend
  referral : Option Slapi_Entry
  deriving DecidableEq, Repr

/-- The collaborators and header constants of `pw_verify.c` that are not defined
in the file itself.  They are parameters: every theorem below holds for all of
them.

* `LDAP_SUCCESS`, `LDAP_AUTH_SIMPLE`: constants of the LDAP C API.
* `config_get_rootpw`: the configured root secret, `none` when none is set.
* `slapi_dn_isroot`, `slapi_sdn_isroot`: the test whether an identity is the
  configured root identity (the argument may be `NULL`).
* `slapi_pw_find_sv`: the credential comparator, given the candidate values and
  the provided credential.
* `slapi_mapping_tree_select`: the backend router, given the request and the
  incoming value of `*referral`.
* `set_db_default_result_handlers`: installs the result handlers in the request.
* `call_be_bind`: the behaviour of the bind entry point stored at a function
  address: its return code and the request as it leaves it. -/
structure Env where
  LDAP_SUCCESS : Int
  LDAP_AUTH_SIMPLE : Nat
  config_get_rootpw : Option String
  slapi_dn_isroot : Option String → Bool
  slapi_sdn_isroot : Option Slapi_DN → Bool
  slapi_pw_find_sv : List Slapi_Value → Option Slapi_Value → BindRc
  slapi_mapping_tree_select : Slapi_PBlock → Option Slapi_Entry → SelectResult
  set_db_default_result_handlers : Slapi_PBlock → Slapi_PBlock
  call_be_bind : Nat → Slapi_PBlock → BindRc × Slapi_PBlock

/-- One call made by the bind helpers to a collaborator, as recorded in the trace. -/
inductive Event
  | slapi_pw_find_sv (vals : List Slapi_Value) (cred : Option Slapi_Value)
  | slapi_mapping_tree_select (rc : Int)
  | slapi_be_Unlock (be : Slapi_Backend)
  | slapi_pblock_set_BACKEND (be : Slapi_Backend)
  | slapi_pblock_set_PLUGIN (plugin : Nat)
  | set_db_default_result_handlers
  | be_bind (be : Slapi_Backend)
  deriving DecidableEq, Repr

/-- The observable result of `pw_verify_be_dn` and `pw_validate_be_dn`: the
return code, the request and `*referral` as they are left, and the calls made. -/
structure Outcome where
  rc : BindRc
  pb : Slapi_PBlock
  referral : Option Slapi_Entry
  trace : List Event
  deriving DecidableEq, Repr

/-! ## The functions of `pw_verify.c` -/

/-- The function `slapi_value_init_string`: a value holding the given string. -/
def slapi_value_init_string (s : String) : Slapi_Value := s

/-- The function `pw_verify_root_dn (dn, cred)`: the return code and the calls
made to the credential comparator. -/
def pw_verify_root_dn (env : Env) (dn : Option String) (cred : Option Slapi_Value) :
    BindRc × List Event :=
  let result := BindRc.LDAP_OPERATIONS_ERROR
  let root_pw := env.config_get_rootpw
  match root_pw with
  | some pw =>
    if env.slapi_dn_isroot dn then
      let root_dn_pw_bval := slapi_value_init_string pw
      let root_dn_pw_vals := [root_dn_pw_bval]
      (env.slapi_pw_find_sv root_dn_pw_vals cred, [Event.slapi_pw_find_sv root_dn_pw_vals cred])
    else
      (result, [])
  | none => (result, [])

/-- The function `pw_verify_be_dn (pb, referral)`. -/
def pw_verify_be_dn (env : Env) (pb : Slapi_PBlock) (referral : Option Slapi_Entry) : Outcome :=
  let sel := env.slapi_mapping_tree_select pb referral
  let be := sel.be
  if sel.rc ≠ env.LDAP_SUCCESS then
    { rc := BindRc.SLAPI_BIND_NO_BACKEND, pb := pb, referral := sel.referral,
      trace := [Event.slapi_mapping_tree_select sel.rc] }
  else if sel.referral.isSome then
    { rc := BindRc.SLAPI_BIND_REFERRAL, pb := pb, referral := sel.referral,
      trace := [Event.slapi_mapping_tree_select sel.rc, Event.slapi_be_Unlock be] }
  else
    let pb1 := { pb with SLAPI_BACKEND := some be }
    match be.be_bind with
    | none =>
      { rc := BindRc.LDAP_OPERATIONS_ERROR, pb := pb1, referral := sel.referral,
        trace := [Event.slapi_mapping_tree_select sel.rc, Event.slapi_pblock_set_BACKEND be,
                  Event.slapi_be_Unlock be] }
    | some fn =>
      let pb2 := { pb1 with SLAPI_PLUGIN := some be.be_database }
      let pb3 := env.set_db_default_result_handlers pb2
      let r := env.call_be_bind fn pb3
      { rc := r.1, pb := r.2, referral := sel.referral,
        trace := [Event.slapi_mapping_tree_select sel.rc, Event.slapi_pblock_set_BACKEND be,
                  Event.slapi_pblock_set_PLUGIN be.be_database,
                  Event.set_db_default_result_handlers, Event.be_bind be,
                  Event.slapi_be_Unlock be] }

/-- The C condition `cred == NULL || cred->bv_len == 0`. -/
def cred_is_empty : Option berval → Bool
  | none => true
  | some c => c.bv_len == 0

/-- The function `pw_validate_be_dn (pb, referral)`. -/
def pw_validate_be_dn (env : Env) (pb : Slapi_PBlock) (referral : Option Slapi_Entry) : Outcome :=
  let pb_sdn := pb.SLAPI_BIND_TARGET_SDN
  let cred := pb.SLAPI_BIND_CREDENTIALS
  let method := pb.SLAPI_BIND_METHOD
  if pb_sdn.isSome || cred.isSome then
    { rc := BindRc.LDAP_OPERATIONS_ERROR, pb := pb, referral := referral, trace := [] }
  else if referral.isSome then
    { rc := BindRc.SLAPI_BIND_REFERRAL, pb := pb, referral := referral, trace := [] }
  else if method == env.LDAP_AUTH_SIMPLE && cred_is_empty cred then
    { rc := BindRc.SLAPI_BIND_ANONYMOUS, pb := pb, referral := referral, trace := [] }
  else if env.slapi_sdn_isroot pb_sdn then
    { rc := BindRc.SLAPI_BIND_SUCCESS, pb := pb, referral := referral, trace := [] }
  else
    let sel := env.slapi_mapping_tree_select pb referral
    let be := sel.be
    if sel.rc ≠ env.LDAP_SUCCESS then
      { rc := BindRc.SLAPI_BIND_NO_BACKEND, pb := pb, referral := sel.referral,
        trace := [Event.slapi_mapping_tree_select sel.rc] }
    else
      let pb1 := { pb with SLAPI_BACKEND := some be }
      let pb2 := { pb1 with SLAPI_PLUGIN := some be.be_database }
      let pb3 := env.set_db_default_result_handlers pb2
      { rc := BindRc.SLAPI_BIND_SUCCESS, pb := pb3, referral := sel.referral,
        trace := [Event.slapi_mapping_tree_select sel.rc, Event.slapi_be_Unlock be,
                  Event.slapi_pblock_set_BACKEND be,
                  Event.slapi_pblock_set_PLUGIN be.be_database,
                  Event.set_db_default_result_handlers] }

/-! ## Observations on a trace -/

/-- Number of calls to the backend router in a trace. -/
def routerCalls : List Event → Nat
  | [] => 0
  | Event.slapi_mapping_tree_select _ :: t => routerCalls t + 1
  | _ :: t => routerCalls t

/-- Modelled from the spec: the lock discipline of the backend router
(`slapi_mapping_tree_select`, in the mapping tree, not among the source files).
Spec section 6: the router "always returns a lock token when a backend is
found, even for referrals"; a failed selection hands out no lock.  So the locks
obtained in a trace are its router calls that returned `LDAP_SUCCESS`. -/
def locksObtained (env : Env) : List Event → Nat
  | [] => 0
  | Event.slapi_mapping_tree_select rc :: t =>
    if rc = env.LDAP_SUCCESS then locksObtained env t + 1 else locksObtained env t
  | _ :: t => locksObtained env t

/-- Number of backend-lock releases (`slapi_be_Unlock`) in a trace. -/
def locksReleased : List Event → Nat
  | [] => 0
  | Event.slapi_be_Unlock _ :: t => locksReleased t + 1
  | _ :: t => locksReleased t

/-- Number of locks held after running a trace from `held` locks, in program
order; `none` if a lock is released while none is held. -/
def locksHeld (env : Env) : Nat → List Event → Option Nat
  | held, [] => some held
  | held, Event.slapi_mapping_tree_select rc :: t =>
    if rc = env.LDAP_SUCCESS then locksHeld env (held + 1) t else locksHeld env held t
  | held, Event.slapi_be_Unlock _ :: t =>
    match held with
    | 0 => none
    | n + 1 => locksHeld env n t
  | held, _ :: t => locksHeld env held t

/-- Number of invocations of a backend's bind entry point in a trace. -/
def bindCalls : List Event → Nat
  | [] => 0
  | Event.be_bind _ :: t => bindCalls t + 1
  | _ :: t => bindCalls t

/-- Number of invocations of the credential comparator in a trace. -/
def comparatorCalls : List Event → Nat
  | [] => 0
  | Event.slapi_pw_find_sv _ _ :: t => comparatorCalls t + 1
  | _ :: t => comparatorCalls t

end PwVerify

namespace UniqueIdGen

/-! ## Data model -/

/-- Modelled from the spec: the result-code macros of the generator
(`UID_SUCCESS`, `UID_BADDATA`, `UID_SYSTEM_ERROR`, `UID_MEMORY_ERROR`) are
declared in a header that is not among the source files.  The spec gives them as
distinct outcomes (`Success`, `BadData`, `SystemError`, section 4.2); the
constructors keep the names the C code and its comments use. -/
inductive UidRc
  | UID_SUCCESS
  | UID_BADDATA
  | UID_SYSTEM_ERROR
  | UID_MEMORY_ERROR
  deriving DecidableEq, Repr

/-- Modelled from the spec: `Slapi_UniqueID` is declared in a header that is not
among the source files; the spec (section 3) describes it as a fixed-size opaque
value.  It is taken as a 128-bit number, so that `= {0}` is the number zero. -/
abbrev Slapi_UniqueID := Fin (2 ^ 128)

/-- The all-zero identifier, the C initialiser `{0}`. -/
def zeroID : Slapi_UniqueID := ⟨0, by norm_num⟩

/-- A distinguished name (`Slapi_DN`), kept as its text. -/
abbrev Slapi_DN := String

/-- The state the uuid primitive keeps between calls (its persisted clock and
counter), abstracted to a number. -/
abbrev GenState := Nat

/-- The collaborators and header constants of `uniqueidgen.c` that are not
defined in the file itself.  They are parameters: every theorem below holds for
all of them.

* `UUID_SUCCESS`: the success code of the uuid primitive.
* `PR_OpenDir`: whether the directory of that name can be opened.
* `uuid_init`: the return code of the primitive's initialisation.
* `uuid_create`: the primitive's creation routine, given the generator state:
  its return code, the identifier and the generator state afterwards.
* `uuid_create_from_name`: the primitive's name-based derivation.
* `slapi_uniqueIDScan`: the parse operation, given the content of the output
  identifier before the call and the text; its return code and the content of
  the output identifier after the call.
* `slapi_uniqueIDFormat`: the format operation; its return code and the text
  stored through the output pointer (`none` when nothing is stored). -/
structure Env where
  UUID_SUCCESS : Int
  PR_OpenDir : String → Bool
  uuid_init : Option String → Option Slapi_DN → Bool → Int
  uuid_create : GenState → Int × Slapi_UniqueID × GenState
  uuid_create_from_name : Slapi_UniqueID → List Nat → Int → Slapi_UniqueID
  slapi_uniqueIDScan : Slapi_UniqueID → String → UidRc × Slapi_UniqueID
  slapi_uniqueIDFormat : Slapi_UniqueID → UidRc × Option String

/-- One call made by the generator to the uuid primitive or to the parse and
format operations, as recorded in the trace. -/
inductive Event
  | uuid_init (configDir : Option String) (configDN : Option Slapi_DN) (mtGen : Bool)
  | uuid_cleanup
  | uuid_create
  | uuid_create_from_name (base : Slapi_UniqueID) (name : List Nat) (namelen : Int)
  | slapi_uniqueIDScan (text : String)
  | slapi_uniqueIDFormat (id : Slapi_UniqueID)
  deriving DecidableEq, Repr

/-- The calls that read or change the generator's state: initialisation,
cleanup, and the time/node based creation routine. -/
def Event.touchesGeneratorState : Event → Bool
  | Event.uuid_init _ _ _ => true
  | Event.uuid_cleanup => true
  | Event.uuid_create => true
  | Event.uuid_create_from_name _ _ _ => false
  | Event.slapi_uniqueIDScan _ => false
  | Event.slapi_uniqueIDFormat _ => false

/-- Number of calls to the primitive's initialisation in a trace. -/
def initCalls : List Event → Nat
  | [] => 0
  | Event.uuid_init _ _ _ :: t => initCalls t + 1
  | _ :: t => initCalls t

/-- Number of calls to the primitive's name-based derivation in a trace. -/
def deriveCalls : List Event → Nat
  | [] => 0
  | Event.uuid_create_from_name _ _ _ :: t => deriveCalls t + 1
  | _ :: t => deriveCalls t

/-! ## The functions of `uniqueidgen.c` -/

/-- The function `validDir (configDir)`; the argument is never `NULL`. -/
def validDir (env : Env) (configDir : String) : Bool :=
  if configDir.length == 0 then
    true
  else if env.PR_OpenDir configDir then
    true
  else
    false

/-- The function `uniqueIDGenInit (configDir, configDN, mtGen)`: the return code
and the calls made to the primitive.  `validDir` is evaluated only where the C
condition evaluates it: `configDN == NULL` and `configDir != NULL`. -/
def uniqueIDGenInit (env : Env) (configDir : Option String) (configDN : Option Slapi_DN)
    (mtGen : Bool) : UidRc × List Event :=
  if (configDN.isNone &&
        (match configDir with
         | none => true
         | some dir => !validDir env dir)) ||
      (configDN.isSome && configDir.isSome) then
    (UidRc.UID_BADDATA, [])
  else
    let rt := env.uuid_init configDir configDN mtGen
    if rt = env.UUID_SUCCESS then
      (UidRc.UID_SUCCESS, [Event.uuid_init configDir configDN mtGen])
    else
      (UidRc.UID_SYSTEM_ERROR, [Event.uuid_init configDir configDN mtGen])

/-- The result of a function that fills an output identifier: the return code,
the content of the output identifier afterwards (`none` when the output pointer
is `NULL`), and the calls made. -/
structure IdResult where
  rc : UidRc
  uId : Option Slapi_UniqueID
  trace : List Event
  deriving DecidableEq, Repr

/-- The result of a function that returns an identifier as text: the return
code, the text stored through the output pointer (`none` when nothing is
stored), and the calls made. -/
structure TextResult where
  rc : UidRc
  uId : Option String
  trace : List Event
  deriving DecidableEq, Repr

/-- The function `uniqueIDGenCleanup ()`: the calls made. -/
def uniqueIDGenCleanup : List Event := [Event.uuid_cleanup]

/-- The function `slapi_uniqueIDGenerate (uId)`, run in generator state `st`: the
result and the generator state afterwards. -/
def slapi_uniqueIDGenerate (env : Env) (st : GenState) (uId : Option Slapi_UniqueID) :
    IdResult × GenState :=
  match uId with
  | none => ({ rc := UidRc.UID_BADDATA, uId := none, trace := [] }, st)
  | some _ =>
    let r := env.uuid_create st
    if r.1 ≠ env.UUID_SUCCESS then
      ({ rc := UidRc.UID_SYSTEM_ERROR, uId := some r.2.1, trace := [Event.uuid_create] }, r.2.2)
    else
      ({ rc := UidRc.UID_SUCCESS, uId := some r.2.1, trace := [Event.uuid_create] }, r.2.2)

/-- The function `slapi_uniqueIDGenerateFromName (uId, uIdBase, name, namelen)`.
`uId` is the output pointer (`none` for `NULL`, otherwise the content it points
to), `uIdBase` and `name` likewise. -/
def slapi_uniqueIDGenerateFromName (env : Env) (uId : Option Slapi_UniqueID)
    (uIdBase : Option Slapi_UniqueID) (name : Option (List Nat)) (namelen : Int) : IdResult :=
  match uId, uIdBase, name with
  | some _, some base, some nm =>
    if namelen ≤ 0 then
      { rc := UidRc.UID_BADDATA, uId := uId, trace := [] }
    else
      { rc := UidRc.UID_SUCCESS, uId := some (env.uuid_create_from_name base nm namelen),
        trace := [Event.uuid_create_from_name base nm namelen] }
  | _, _, _ => { rc := UidRc.UID_BADDATA, uId := uId, trace := [] }

/-- Lines 198 to 205 of `slapi_uniqueIDGenerateFromNameString`: what the function
does once `idBase` is settled; `t` holds the calls made so far. -/
def generateFromNameStringRest (env : Env) (idBase : Slapi_UniqueID) (t : List Event)
    (name : Option (List Nat)) (namelen : Int) : TextResult :=
  let idGen : Slapi_UniqueID := zeroID
  let g := slapi_uniqueIDGenerateFromName env (some idGen) (some idBase) name namelen
  if g.rc ≠ UidRc.UID_SUCCESS then
    { rc := g.rc, uId := none, trace := t ++ g.trace }
  else
    let idGen1 := g.uId.getD idGen
    let f := env.slapi_uniqueIDFormat idGen1
    { rc := f.1, uId := f.2, trace := t ++ g.trace ++ [Event.slapi_uniqueIDFormat idGen1] }

/-- The function `slapi_uniqueIDGenerateFromNameString (uId, uIdBase, name, namelen)`;
the output pointer `uId` is taken to be valid. -/
def slapi_uniqueIDGenerateFromNameString (env : Env) (uIdBase : Option String)
    (name : Option (List Nat)) (namelen : Int) : TextResult :=
  let idBase : Slapi_UniqueID := zeroID
  match uIdBase with
  | some text =>
    let s := env.slapi_uniqueIDScan idBase text
    if s.1 ≠ UidRc.UID_SUCCESS then
      { rc := s.1, uId := none, trace := [Event.slapi_uniqueIDScan text] }
    else
      generateFromNameStringRest env s.2 [Event.slapi_uniqueIDScan text] name namelen
  | none => generateFromNameStringRest env idBase [] name namelen

/-! ## The derivation as the spec words it -/

/-- The parse operation as the spec words it: it yields an identifier, or
fails `BadData` on malformed text (text the parse operation does not accept). -/
def specParse (env : Env) (text : String) : Except UidRc Slapi_UniqueID :=
  let s := env.slapi_uniqueIDScan zeroID text
  if s.1 = UidRc.UID_SUCCESS then Except.ok s.2 else Except.error UidRc.UID_BADDATA

/-- The operation `deriveFromName` as the spec words it: it fails `BadData` if
the name is empty or absent, and is the primitive's `createFromName` otherwise. -/
def specDeriveFromName (env : Env) (base : Slapi_UniqueID) (name : Option (List Nat))
    (namelen : Int) : Except UidRc Slapi_UniqueID :=
  match name with
  | none => Except.error UidRc.UID_BADDATA
  | some nm =>
    if namelen ≤ 0 then Except.error UidRc.UID_BADDATA
    else Except.ok (env.uuid_create_from_name base nm namelen)

/-- The operation `deriveFromNameFormatted` as the spec words it: the base is
the all-zero identifier when the base text is absent and the parsed base text
otherwise; then `deriveFromName`; then formatting.  The result is the return
code and the text produced. -/
def specDeriveFromNameFormatted (env : Env) (baseText : Option String)
    (name : Option (List Nat)) (namelen : Int) : UidRc × Option String :=
  let base : Except UidRc Slapi_UniqueID :=
    match baseText with
    | none => Except.ok zeroID
    | some text => specParse env text
  match base >>= fun b => specDeriveFromName env b name namelen with
  | Except.ok id => env.slapi_uniqueIDFormat id
  | Except.error e => (e, none)

end UniqueIdGen

namespace PwVerify

/-! ## Contracts and conditions used to state the properties -/

/-- Modelled from the spec: the contract of the credential comparator
(`slapi_pw_find_sv`, not among the source files).  Spec section 6:
`findMatch (candidateValues, providedCredential)` reports `Success` when the
provided credential matches one of the candidate values and
`InvalidCredentials` otherwise; `isMatch` is the comparison of one stored value
with the provided credential. -/
def findMatch (isMatch : Slapi_Value → Option Slapi_Value → Bool)
    (vals : List Slapi_Value) (cred : Option Slapi_Value) : BindRc :=
  if vals.any (fun v => isMatch v cred) then BindRc.SLAPI_BIND_SUCCESS
  else BindRc.LDAP_INVALID_CREDENTIALS

/-- The request reaches the backend selection of `pw_validate_be_dn`: none of
the four earlier `if` statements of the function returns. -/
def reachesSelection (env : Env) (pb : Slapi_PBlock) (referral : Option Slapi_Entry) : Bool :=
  !(pb.SLAPI_BIND_TARGET_SDN.isSome || pb.SLAPI_BIND_CREDENTIALS.isSome) &&
  !referral.isSome &&
  !(pb.SLAPI_BIND_METHOD == env.LDAP_AUTH_SIMPLE && cred_is_empty pb.SLAPI_BIND_CREDENTIALS) &&
  !env.slapi_sdn_isroot pb.SLAPI_BIND_TARGET_SDN

/-- The request as `pw_verify_be_dn` and `pw_validate_be_dn` leave it after
attaching the backend, its plugin and the result handlers. -/
def attached (env : Env) (pb : Slapi_PBlock) (be : Slapi_Backend) : Slapi_PBlock :=
  env.set_db_default_result_handlers
    { pb with SLAPI_BACKEND := some be, SLAPI_PLUGIN := some be.be_database }

/-! ## Concrete requests and environments -/

/-- A backend with a bind entry point. -/
def userRoot : Slapi_Backend := { be_name := "userRoot", be_bind := some 1, be_database := 7 }

/-- A backend without a bind entry point. -/
def noBindBackend : Slapi_Backend := { be_name := "schema", be_bind := none, be_database := 9 }

/-- A request with the given identity, credential and method and nothing attached. -/
def request (sdn : Option Slapi_DN) (cred : Option berval) (method : Nat) : Slapi_PBlock :=
  { SLAPI_BIND_TARGET_SDN := sdn, SLAPI_BIND_CREDENTIALS := cred, SLAPI_BIND_METHOD := method,
    SLAPI_BACKEND := none, SLAPI_PLUGIN := none, result_handlers := 0 }

/-- An environment with success code 0, simple-bind tag 128, root identity
`cn=directory manager` with secret `secret`, a comparator that accepts exactly
the stored value itself, a router that always gives the answer `sel`, and a bind
entry point that reports invalid credentials. -/
def sampleEnv (sel : SelectResult) : Env :=
  { LDAP_SUCCESS := 0
    LDAP_AUTH_SIMPLE := 128
    config_get_rootpw := some "secret"
    slapi_dn_isroot := fun dn => dn == some "cn=directory manager"
    slapi_sdn_isroot := fun sdn => sdn == some "cn=directory manager"
    slapi_pw_find_sv := findMatch (fun v c => c == some v)
    slapi_mapping_tree_select := fun _ _ => sel
    set_db_default_result_handlers := fun pb => { pb with result_handlers := 1 }
    call_be_bind := fun _ pb => (BindRc.LDAP_INVALID_CREDENTIALS, pb) }

/-- Router answer: selection succeeded, backend `userRoot`, no referral. -/
def selFound : SelectResult := { rc := 0, be := userRoot, referral := none }

/-- Router answer: selection succeeded, backend without bind, no referral. -/
def selNoBind : SelectResult := { rc := 0, be := noBindBackend, referral := none }

/-- Router answer: selection succeeded with a referral. -/
def selReferral : SelectResult :=
  { rc := 0, be := userRoot, referral := some "ref: ldap://other.example.com" }

/-- Router answer: selection failed with code 32. -/
def selFailed : SelectResult := { rc := 32, be := noBindBackend, referral := none }

end PwVerify

namespace UniqueIdGen

/-! ## Concrete environments -/

/-- An environment with success code 0 in which only the directory `/var/lib/dirsrv`
can be opened, initialisation succeeds exactly for single-threaded use, text is
accepted by the parse operation exactly when it is `0` or `1`, derivation adds
the name length to the base, and formatting yields the decimal digits. -/
def sampleEnv : Env :=
  { UUID_SUCCESS := 0
    PR_OpenDir := fun dir => dir == "/var/lib/dirsrv"
    uuid_init := fun _ _ mtGen => if mtGen then 1 else 0
    uuid_create := fun st => (0, Fin.ofNat st, st + 1)
    uuid_create_from_name := fun base _ namelen => base + Fin.ofNat namelen.toNat
    slapi_uniqueIDScan := fun old text =>
      if text == "0" then (UidRc.UID_SUCCESS, zeroID)
      else if text == "1" then (UidRc.UID_SUCCESS, 1)
      else (UidRc.UID_BADDATA, old)
    slapi_uniqueIDFormat := fun id => (UidRc.UID_SUCCESS, some (toString id.val)) }

end UniqueIdGen

/-! # Theorems -/

namespace PwVerify

/-- Claim C1 (lock pairing).  For every request, every incoming referral and every
behaviour of the router and of the backend: `pw_verify_be_dn` calls the router
exactly once and `pw_validate_be_dn` at most once; each releases the backend
lock exactly once when the router's selection succeeded (whatever happens
afterwards: referral, backend without bind, bind outcome) and never when the
selection failed or was not attempted; the lock released is that of the
selected backend; the number of releases equals the number of locks obtained,
no lock is released before it is obtained, and none is held on return. -/
theorem lock_pairing (env : Env) (pb : Slapi_PBlock) (referral : Option Slapi_Entry) :
    (let sel := env.slapi_mapping_tree_select pb referral
     let t := (pw_verify_be_dn env pb referral).trace
     routerCalls t = 1 ∧
     (sel.rc = env.LDAP_SUCCESS → locksReleased t = 1) ∧
     (sel.rc ≠ env.LDAP_SUCCESS → locksReleased t = 0) ∧
     (∀ be, Event.slapi_be_Unlock be ∈ t → be = sel.be) ∧
     locksReleased t = locksObtained env t ∧
     locksHeld env 0 t = some 0) ∧
    (let sel := env.slapi_mapping_tree_select pb referral
     let t := (pw_validate_be_dn env pb referral).trace
     routerCalls t ≤ 1 ∧
     (routerCalls t = 1 → sel.rc = env.LDAP_SUCCESS → locksReleased t = 1) ∧
     (routerCalls t = 1 → sel.rc ≠ env.LDAP_SUCCESS → locksReleased t = 0) ∧
     (routerCalls t = 0 → locksReleased t = 0) ∧
     (∀ be, Event.slapi_be_Unlock be ∈ t → be = sel.be) ∧
     locksReleased t = locksObtained env t ∧
     locksHeld env 0 t = some 0) := by
  constructor
  · simp only [pw_verify_be_dn]
    split_ifs with h1 h2
    · simp [routerCalls, locksReleased, locksObtained, locksHeld, h1]
    · have h1' : (env.slapi_mapping_tree_select pb referral).rc = env.LDAP_SUCCESS := by
        simpa using h1
      simp [routerCalls, locksReleased, locksObtained, locksHeld, h1']
    · have h1' : (env.slapi_mapping_tree_select pb referral).rc = env.LDAP_SUCCESS := by
        simpa using h1
      cases hb : (env.slapi_mapping_tree_select pb referral).be.be_bind <;>
        simp [routerCalls, locksReleased, locksObtained, locksHeld, h1']
  · simp only [pw_validate_be_dn]
    split_ifs with h1 h2 h3 h4 h5
    · simp [routerCalls, locksReleased, locksObtained, locksHeld]
    · simp [routerCalls, locksReleased, locksObtained, locksHeld]
    · simp [routerCalls, locksReleased, locksObtained, locksHeld]
    · simp [routerCalls, locksReleased, locksObtained, locksHeld]
    · simp [routerCalls, locksReleased, locksObtained, locksHeld, h5]
    · have h5' : (env.slapi_mapping_tree_select pb referral).rc = env.LDAP_SUCCESS := by
        simpa using h5
      simp [routerCalls, locksReleased, locksObtained, locksHeld, h5']

/-- Lock pairing at concrete requests: a bind that the backend rejects and a
validation that finds a backend each release the lock once; a failed selection
releases nothing. -/
theorem lock_pairing_witness :
    locksReleased
      (pw_verify_be_dn (sampleEnv selFound) (request (some "uid=bob") (some ⟨2, [104, 105]⟩) 128)
        none).trace = 1 ∧
    locksReleased
      (pw_verify_be_dn (sampleEnv selFailed) (request (some "uid=bob") (some ⟨2, [104, 105]⟩) 128)
        none).trace = 0 ∧
    locksReleased (pw_validate_be_dn (sampleEnv selFound) (request none none 163) none).trace = 1 :=
  ⟨(lock_pairing (sampleEnv selFound) (request (some "uid=bob") (some ⟨2, [104, 105]⟩) 128)
      none).1.2.1 rfl,
   (lock_pairing (sampleEnv selFailed) (request (some "uid=bob") (some ⟨2, [104, 105]⟩) 128)
      none).1.2.2.1 (by decide),
   (lock_pairing (sampleEnv selFound) (request none none 163) none).2.2.1 (by decide) rfl⟩

/-- Claim C2 (priority order of `pw_verify_be_dn`).  The function returns
`SLAPI_BIND_NO_BACKEND` if the router's selection fails; otherwise
`SLAPI_BIND_REFERRAL` if the router reports a referral; otherwise
`LDAP_OPERATIONS_ERROR` if the selected backend has no bind entry point;
otherwise exactly the code returned by the backend's bind entry point, which is
called on the request with backend, plugin and result handlers attached.  The
bind entry point is invoked exactly once in the last case and never in the
first three. -/
theorem verify_be_dn_priority (env : Env) (pb : Slapi_PBlock) (referral : Option Slapi_Entry) :
    let sel := env.slapi_mapping_tree_select pb referral
    let r := pw_verify_be_dn env pb referral
    (sel.rc ≠ env.LDAP_SUCCESS →
      r.rc = BindRc.SLAPI_BIND_NO_BACKEND ∧ bindCalls r.trace = 0) ∧
    (sel.rc = env.LDAP_SUCCESS → sel.referral ≠ none →
      r.rc = BindRc.SLAPI_BIND_REFERRAL ∧ bindCalls r.trace = 0) ∧
    (sel.rc = env.LDAP_SUCCESS → sel.referral = none → sel.be.be_bind = none →
      r.rc = BindRc.LDAP_OPERATIONS_ERROR ∧ bindCalls r.trace = 0) ∧
    (∀ fn, sel.rc = env.LDAP_SUCCESS → sel.referral = none → sel.be.be_bind = some fn →
      r.rc = (env.call_be_bind fn (attached env pb sel.be)).1 ∧
      bindCalls r.trace = 1 ∧ Event.be_bind sel.be ∈ r.trace) := by
  intro sel r
  refine ⟨?_, ?_, ?_, ?_⟩
  · intro h
    simp [r, sel, pw_verify_be_dn, h, bindCalls]
  · intro h hr
    simp only [sel] at h hr
    have hr' : (env.slapi_mapping_tree_select pb referral).referral.isSome = true := by
      cases hx : (env.slapi_mapping_tree_select pb referral).referral with
      | none => exact absurd hx hr
      | some _ => rfl
    simp [r, pw_verify_be_dn, h, hr', bindCalls]
  · intro h hr hb
    simp only [sel] at h hr hb
    simp [r, pw_verify_be_dn, h, hr, hb, bindCalls]
  · intro fn h hr hb
    simp only [sel] at h hr hb
    simp [r, sel, pw_verify_be_dn, h, hr, hb, bindCalls, attached]

/-- The priority order at concrete requests: a failed selection gives
`SLAPI_BIND_NO_BACKEND`; with a backend found, the code of its bind entry
point is returned and the entry point is called once. -/
theorem verify_be_dn_priority_witness :
    (pw_verify_be_dn (sampleEnv selFailed) (request (some "uid=admin2") (some ⟨0, []⟩) 128) none).rc
        = BindRc.SLAPI_BIND_NO_BACKEND ∧
    (pw_verify_be_dn (sampleEnv selFound) (request (some "uid=bob") (some ⟨2, [104, 105]⟩) 128)
      none).rc = BindRc.LDAP_INVALID_CREDENTIALS ∧
    bindCalls
      (pw_verify_be_dn (sampleEnv selFound) (request (some "uid=bob") (some ⟨2, [104, 105]⟩) 128)
        none).trace = 1 := by
  have h1 := verify_be_dn_priority (sampleEnv selFailed)
    (request (some "uid=admin2") (some ⟨0, []⟩) 128) none
  have h2 := verify_be_dn_priority (sampleEnv selFound)
    (request (some "uid=bob") (some ⟨2, [104, 105]⟩) 128) none
  exact ⟨(h1.1 (by decide)).1, (h2.2.2.2 1 rfl rfl rfl).1, (h2.2.2.2 1 rfl rfl rfl).2.1⟩

/-- When the target identity or the credential of the request is populated, the
first `if` of `pw_validate_be_dn` returns: nothing is called, nothing changes. -/
theorem pw_validate_be_dn_of_populated (env : Env) (pb : Slapi_PBlock)
    (referral : Option Slapi_Entry)
    (h : pb.SLAPI_BIND_TARGET_SDN ≠ none ∨ pb.SLAPI_BIND_CREDENTIALS ≠ none) :
    pw_validate_be_dn env pb referral = ⟨BindRc.LDAP_OPERATIONS_ERROR, pb, referral, []⟩ := by
  have hg : (pb.SLAPI_BIND_TARGET_SDN.isSome || pb.SLAPI_BIND_CREDENTIALS.isSome) = true := by
    rcases h with h | h
    · cases hx : pb.SLAPI_BIND_TARGET_SDN with
      | none => exact absurd hx h
      | some _ => rfl
    · cases hx : pb.SLAPI_BIND_CREDENTIALS with
      | none => exact absurd hx h
      | some _ => simp
  simp [pw_validate_be_dn, hg]

/-- Claim C3 (double-resolution guard).  For every request whose target identity
or credential is populated, `pw_validate_be_dn` returns `LDAP_OPERATIONS_ERROR`,
whatever the auth method, the incoming referral and the router; it makes no
call at all (so none to the router) and leaves the request, its backend handle
included, and the referral unchanged. -/
theorem validate_guard (env : Env) (pb : Slapi_PBlock) (referral : Option Slapi_Entry)
    (h : pb.SLAPI_BIND_TARGET_SDN ≠ none ∨ pb.SLAPI_BIND_CREDENTIALS ≠ none) :
    let r := pw_validate_be_dn env pb referral
    r.rc = BindRc.LDAP_OPERATIONS_ERROR ∧
    routerCalls r.trace = 0 ∧ r.trace = [] ∧
    r.pb = pb ∧ r.pb.SLAPI_BACKEND = pb.SLAPI_BACKEND ∧ r.referral = referral := by
  intro r
  have hr : r = ⟨BindRc.LDAP_OPERATIONS_ERROR, pb, referral, []⟩ :=
    pw_validate_be_dn_of_populated env pb referral h
  rw [hr]
  exact ⟨rfl, rfl, rfl, rfl, rfl, rfl⟩

/-- The guard at a concrete request: an identity is populated, the answer is
`LDAP_OPERATIONS_ERROR`. -/
theorem validate_guard_witness :
    (pw_validate_be_dn (sampleEnv selFound) (request (some "uid=bob") none 163) none).rc
      = BindRc.LDAP_OPERATIONS_ERROR :=
  (validate_guard (sampleEnv selFound) (request (some "uid=bob") none 163) none
    (Or.inl (by decide))).1

/-- Claim C4, the code at the failing input.  A Simple bind whose credential is
present with length zero, with no target identity and no referral, satisfies
the test of line 121 (`cred->bv_len == 0`), which the function's header
comment announces as "is this anonymous?"; yet `pw_validate_be_dn` returns
`LDAP_OPERATIONS_ERROR`, not `SLAPI_BIND_ANONYMOUS`, because the `if` of
line 112 returns first for every credential that is not `NULL`. -/
theorem validate_anonymous_failing_input :
    (request none (some ⟨0, []⟩) 128).SLAPI_BIND_METHOD = (sampleEnv selFound).LDAP_AUTH_SIMPLE ∧
    cred_is_empty (request none (some ⟨0, []⟩) 128).SLAPI_BIND_CREDENTIALS = true ∧
    (request none (some ⟨0, []⟩) 128).SLAPI_BIND_TARGET_SDN = none ∧
    (pw_validate_be_dn (sampleEnv selFound) (request none (some ⟨0, []⟩) 128) none).rc
      = BindRc.LDAP_OPERATIONS_ERROR ∧
    (pw_validate_be_dn (sampleEnv selFound) (request none (some ⟨0, []⟩) 128) none).rc
      ≠ BindRc.SLAPI_BIND_ANONYMOUS := by
  decide

/-- Claim C5, the code at the failing inputs.  On requests that reach backend
selection: when the selected backend has no bind entry point,
`pw_verify_be_dn` returns `LDAP_OPERATIONS_ERROR` but `pw_validate_be_dn`
returns `SLAPI_BIND_SUCCESS`; when the router reports a referral,
`pw_verify_be_dn` returns `SLAPI_BIND_REFERRAL` but `pw_validate_be_dn`
returns `SLAPI_BIND_SUCCESS`, since it tests `*referral` only before the router
call that sets it; and `pw_validate_be_dn` releases the backend lock before it
attaches the backend and reads `be->be_database`, where `pw_verify_be_dn`
attaches first and releases last. -/
theorem validate_selection_failing_input :
    (reachesSelection (sampleEnv selNoBind) (request none none 163) none = true ∧
      selNoBind.rc = (sampleEnv selNoBind).LDAP_SUCCESS ∧ selNoBind.referral = none ∧
      selNoBind.be.be_bind = none ∧
      (pw_verify_be_dn (sampleEnv selNoBind) (request none none 163) none).rc
        = BindRc.LDAP_OPERATIONS_ERROR ∧
      (pw_validate_be_dn (sampleEnv selNoBind) (request none none 163) none).rc
        = BindRc.SLAPI_BIND_SUCCESS) ∧
    (reachesSelection (sampleEnv selReferral) (request none none 163) none = true ∧
      selReferral.rc = (sampleEnv selReferral).LDAP_SUCCESS ∧ selReferral.referral ≠ none ∧
      (pw_verify_be_dn (sampleEnv selReferral) (request none none 163) none).rc
        = BindRc.SLAPI_BIND_REFERRAL ∧
      (pw_validate_be_dn (sampleEnv selReferral) (request none none 163) none).rc
        = BindRc.SLAPI_BIND_SUCCESS) ∧
    (pw_validate_be_dn (sampleEnv selFound) (request none none 163) none).trace
      = [Event.slapi_mapping_tree_select 0, Event.slapi_be_Unlock userRoot,
         Event.slapi_pblock_set_BACKEND userRoot, Event.slapi_pblock_set_PLUGIN 7,
         Event.set_db_default_result_handlers] := by
  decide

/-- Claim C6, the code at the failing input.  A SASL request whose target identity
is the configured root identity, with no credential and no referral, satisfies
the root test of line 125 (commented "This is a real identity", announced in
the function's header comment as "is this the rootdn?"); yet
`pw_validate_be_dn` returns `LDAP_OPERATIONS_ERROR`, not `SLAPI_BIND_SUCCESS`,
because the `if` of line 112 returns first for every target identity that is
not `NULL`. -/
theorem validate_root_failing_input :
    (sampleEnv selFound).slapi_sdn_isroot
        (request (some "cn=directory manager") none 163).SLAPI_BIND_TARGET_SDN = true ∧
    ((request (some "cn=directory manager") none 163).SLAPI_BIND_METHOD
        == (sampleEnv selFound).LDAP_AUTH_SIMPLE
      && cred_is_empty (request (some "cn=directory manager") none 163).SLAPI_BIND_CREDENTIALS)
      = false ∧
    (pw_validate_be_dn (sampleEnv selFound) (request (some "cn=directory manager") none 163) none).rc
      = BindRc.LDAP_OPERATIONS_ERROR ∧
    (pw_validate_be_dn (sampleEnv selFound) (request (some "cn=directory manager") none 163) none).rc
      ≠ BindRc.SLAPI_BIND_SUCCESS := by
  decide

/-- Claim C7 (`pw_verify_root_dn`).  Whenever no root secret is configured or the
target identity is not the configured root identity, the function returns
`LDAP_OPERATIONS_ERROR` whatever the credential, without invoking the
credential comparator.  Otherwise it invokes the comparator once, on the
candidate list holding only the configured root secret, and returns exactly
what the comparator reports; so with a comparator that meets its contract
(`findMatch`), a credential matching the configured secret yields
`SLAPI_BIND_SUCCESS` and any other credential `LDAP_INVALID_CREDENTIALS`. -/
theorem verify_root_dn (env : Env) (dn : Option String) (cred : Option Slapi_Value) :
    let r := pw_verify_root_dn env dn cred
    (env.config_get_rootpw = none ∨ env.slapi_dn_isroot dn = false →
      r.1 = BindRc.LDAP_OPERATIONS_ERROR ∧ comparatorCalls r.2 = 0 ∧ r.2 = []) ∧
    (∀ pw, env.config_get_rootpw = some pw → env.slapi_dn_isroot dn = true →
      r.1 = env.slapi_pw_find_sv [pw] cred ∧
      r.2 = [Event.slapi_pw_find_sv [pw] cred] ∧
      ∀ isMatch, env.slapi_pw_find_sv = findMatch isMatch →
        (isMatch pw cred = true → r.1 = BindRc.SLAPI_BIND_SUCCESS) ∧
        (isMatch pw cred = false → r.1 = BindRc.LDAP_INVALID_CREDENTIALS)) := by
  intro r
  constructor
  · intro h
    rcases h with h | h
    · simp [r, pw_verify_root_dn, h, comparatorCalls]
    · cases hp : env.config_get_rootpw <;> simp [r, pw_verify_root_dn, h, hp, comparatorCalls]
  · intro pw hp hr
    have hv : r = (env.slapi_pw_find_sv [pw] cred, [Event.slapi_pw_find_sv [pw] cred]) := by
      simp [r, pw_verify_root_dn, hp, hr, slapi_value_init_string]
    refine ⟨by rw [hv], by rw [hv], ?_⟩
    intro isMatch hcmp
    rw [hv, hcmp]
    constructor
    · intro hmatch
      simp [findMatch, hmatch]
    · intro hmatch
      simp [findMatch, hmatch]

/-- Root verification at concrete requests (root identity `cn=directory manager`,
secret `secret`): another identity gives `LDAP_OPERATIONS_ERROR`, the root
identity with the secret `SLAPI_BIND_SUCCESS`, with another credential
`LDAP_INVALID_CREDENTIALS`. -/
theorem verify_root_dn_witness :
    (pw_verify_root_dn (sampleEnv selFound) (some "uid=admin2") (some "secret")).1
        = BindRc.LDAP_OPERATIONS_ERROR ∧
    (pw_verify_root_dn (sampleEnv selFound) (some "cn=directory manager") (some "secret")).1
        = BindRc.SLAPI_BIND_SUCCESS ∧
    (pw_verify_root_dn (sampleEnv selFound) (some "cn=directory manager") (some "wrong")).1
        = BindRc.LDAP_INVALID_CREDENTIALS :=
  ⟨((verify_root_dn (sampleEnv selFound) (some "uid=admin2") (some "secret")).1
      (Or.inr (by decide))).1,
   (((verify_root_dn (sampleEnv selFound) (some "cn=directory manager") (some "secret")).2
      "secret" rfl (by decide)).2.2 (fun v c => c == some v) rfl).1 (by decide),
   (((verify_root_dn (sampleEnv selFound) (some "cn=directory manager") (some "wrong")).2
      "secret" rfl (by decide)).2.2 (fun v c => c == some v) rfl).2 (by decide)⟩

end PwVerify

namespace UniqueIdGen

/-- Claim C8 (`uniqueIDGenInit`, conflicting configuration).  The function fails
with `UID_BADDATA`, without calling `uuid_init`, when both a directory path and
a directory-entry reference are supplied and when neither is supplied.  An
empty directory path counts as supplied: with no entry reference it is a valid
directory, is never rejected with `UID_BADDATA` and is handed to `uuid_init`;
together with an entry reference it is rejected with `UID_BADDATA`. -/
theorem init_conflict (env : Env) (mtGen : Bool) :
    (∀ dir dn, uniqueIDGenInit env (some dir) (some dn) mtGen = (UidRc.UID_BADDATA, []) ∧
      initCalls (uniqueIDGenInit env (some dir) (some dn) mtGen).2 = 0) ∧
    (uniqueIDGenInit env none none mtGen = (UidRc.UID_BADDATA, []) ∧
      initCalls (uniqueIDGenInit env none none mtGen).2 = 0) ∧
    (validDir env "" = true ∧
      (uniqueIDGenInit env (some "") none mtGen).1 ≠ UidRc.UID_BADDATA ∧
      (uniqueIDGenInit env (some "") none mtGen).2 = [Event.uuid_init (some "") none mtGen]) ∧
    (∀ dn, uniqueIDGenInit env (some "") (some dn) mtGen = (UidRc.UID_BADDATA, [])) := by
  refine ⟨?_, ?_, ?_, ?_⟩
  · intro dir dn
    simp [uniqueIDGenInit, initCalls]
  · simp [uniqueIDGenInit, initCalls]
  · have hv : validDir env "" = true := by simp [validDir]
    refine ⟨hv, ?_, ?_⟩
    · simp only [uniqueIDGenInit, hv]
      split_ifs <;> simp_all
    · simp only [uniqueIDGenInit, hv]
      split_ifs <;> simp_all
  · intro dn
    simp [uniqueIDGenInit]

/-- The conflicting configurations at concrete arguments. -/
theorem init_conflict_witness :
    uniqueIDGenInit sampleEnv (some "/var/lib/dirsrv") (some "cn=uniqueid generator,cn=config") false
        = (UidRc.UID_BADDATA, []) ∧
    uniqueIDGenInit sampleEnv none none false = (UidRc.UID_BADDATA, []) ∧
    (uniqueIDGenInit sampleEnv (some "") none false).1 ≠ UidRc.UID_BADDATA :=
  ⟨((init_conflict sampleEnv false).1 _ _).1, (init_conflict sampleEnv false).2.1.1,
   (init_conflict sampleEnv false).2.2.1.2.1⟩

/-- Claim C9, as stated, fails: with only a directory path supplied, and that
path not one that can be opened, the function returns `UID_BADDATA` and does
not call `uuid_init`. -/
theorem init_delegates_counterexample :
    (some "/no/such/dir" : Option String).isSome = true ∧
    (none : Option Slapi_DN).isSome = false ∧
    uniqueIDGenInit sampleEnv (some "/no/such/dir") none false = (UidRc.UID_BADDATA, []) ∧
    initCalls (uniqueIDGenInit sampleEnv (some "/no/such/dir") none false).2 = 0 := by
  decide

/-- Claim C9, amended.  For every call of `uniqueIDGenInit` in which exactly one of
directory path and directory-entry reference is supplied: if a supplied path is
a valid directory (empty, or one that can be opened), the call delegates to
`uuid_init` with that location and the given concurrency mode, returns
`UID_SUCCESS` if the primitive succeeds and `UID_SYSTEM_ERROR` if it fails, and
never `UID_BADDATA`; if the supplied path is not a valid directory, the call
returns `UID_BADDATA` without calling `uuid_init`. -/
theorem init_delegates (env : Env) (configDir : Option String) (configDN : Option Slapi_DN)
    (mtGen : Bool) (hone : configDir.isSome ≠ configDN.isSome) :
    let r := uniqueIDGenInit env configDir configDN mtGen
    ((∀ dir, configDir = some dir → validDir env dir = true) →
      r.2 = [Event.uuid_init configDir configDN mtGen] ∧
      (env.uuid_init configDir configDN mtGen = env.UUID_SUCCESS → r.1 = UidRc.UID_SUCCESS) ∧
      (env.uuid_init configDir configDN mtGen ≠ env.UUID_SUCCESS →
        r.1 = UidRc.UID_SYSTEM_ERROR) ∧
      r.1 ≠ UidRc.UID_BADDATA) ∧
    (∀ dir, configDir = some dir → validDir env dir = false →
      r = (UidRc.UID_BADDATA, []) ∧ initCalls r.2 = 0) := by
  intro r
  constructor
  · intro hvalid
    cases configDir with
    | none =>
      cases configDN with
      | none => simp at hone
      | some dn =>
        simp only [r, uniqueIDGenInit]
        split_ifs <;> simp_all
    | some dir =>
      cases configDN with
      | some dn => simp at hone
      | none =>
        have hv := hvalid dir rfl
        simp only [r, uniqueIDGenInit, hv]
        split_ifs <;> simp_all
  · intro dir hdir hinvalid
    subst hdir
    cases configDN with
    | some dn => simp at hone
    | none => simp [r, uniqueIDGenInit, hinvalid, initCalls]

/-- Delegation at concrete arguments: a directory that can be opened, single
threaded, succeeds; an entry reference, multi-threaded, where the primitive
fails, gives `UID_SYSTEM_ERROR`. -/
theorem init_delegates_witness :
    uniqueIDGenInit sampleEnv (some "/var/lib/dirsrv") none false
        = (UidRc.UID_SUCCESS, [Event.uuid_init (some "/var/lib/dirsrv") none false]) ∧
    (uniqueIDGenInit sampleEnv none (some "cn=uniqueid generator,cn=config") true).1
        = UidRc.UID_SYSTEM_ERROR := by
  have h1 := (init_delegates sampleEnv (some "/var/lib/dirsrv") none false (by decide)).1
    (by intro dir hd; cases hd; decide)
  have h2 := (init_delegates sampleEnv none (some "cn=uniqueid generator,cn=config") true
    (by decide)).1 (by intro dir hd; cases hd)
  exact ⟨Prod.ext (h1.2.1 (by decide)) h1.1, h2.2.2.1 (by decide)⟩

end UniqueIdGen

namespace UniqueIdGen

/-- With an absent name or a length that is not positive, the second half of
`slapi_uniqueIDGenerateFromNameString` returns `UID_BADDATA` and calls nothing. -/
theorem generateFromNameStringRest_bad (env : Env) (idBase : Slapi_UniqueID) (t : List Event)
    (name : Option (List Nat)) (namelen : Int) (h : name = none ∨ namelen ≤ 0) :
    generateFromNameStringRest env idBase t name namelen
      = { rc := UidRc.UID_BADDATA, uId := none, trace := t } := by
  rcases h with h | h
  · subst h
    simp [generateFromNameStringRest, slapi_uniqueIDGenerateFromName]
  · cases name with
    | none => simp [generateFromNameStringRest, slapi_uniqueIDGenerateFromName]
    | some nm => simp [generateFromNameStringRest, slapi_uniqueIDGenerateFromName, h]

/-- With a name of positive length, the second half of
`slapi_uniqueIDGenerateFromNameString` derives once and formats the result. -/
theorem generateFromNameStringRest_ok (env : Env) (idBase : Slapi_UniqueID) (t : List Event)
    (nm : List Nat) (namelen : Int) (h : 0 < namelen) :
    generateFromNameStringRest env idBase t (some nm) namelen
      = { rc := (env.slapi_uniqueIDFormat (env.uuid_create_from_name idBase nm namelen)).1,
          uId := (env.slapi_uniqueIDFormat (env.uuid_create_from_name idBase nm namelen)).2,
          trace := t ++ [Event.uuid_create_from_name idBase nm namelen,
                         Event.slapi_uniqueIDFormat
                           (env.uuid_create_from_name idBase nm namelen)] } := by
  have h' : ¬ namelen ≤ 0 := not_le.mpr h
  simp [generateFromNameStringRest, slapi_uniqueIDGenerateFromName, h']

/-- The second half of `slapi_uniqueIDGenerateFromNameString` is `deriveFromName`
followed by formatting. -/
theorem generateFromNameStringRest_spec (env : Env) (idBase : Slapi_UniqueID) (t : List Event)
    (name : Option (List Nat)) (namelen : Int) :
    ((generateFromNameStringRest env idBase t name namelen).rc,
      (generateFromNameStringRest env idBase t name namelen).uId)
      = match specDeriveFromName env idBase name namelen with
        | Except.ok id => env.slapi_uniqueIDFormat id
        | Except.error e => (e, none) := by
  cases name with
  | none =>
    rw [generateFromNameStringRest_bad env idBase t none namelen (Or.inl rfl)]
    simp [specDeriveFromName]
  | some nm =>
    by_cases h : namelen ≤ 0
    · rw [generateFromNameStringRest_bad env idBase t (some nm) namelen (Or.inr h)]
      simp [specDeriveFromName, h]
    · rw [generateFromNameStringRest_ok env idBase t nm namelen (not_le.mp h)]
      simp [specDeriveFromName, h]

/-- Claim C10 (`slapi_uniqueIDGenerateFromNameString`).  Given a parse operation
that reports malformed text with `UID_BADDATA`, the function equals the
composition parse, `deriveFromName`, format as the spec words it.  In detail:
it calls nothing that reads or changes the generator state; when the base text
is malformed it fails with `UID_BADDATA`, stores no text and derives nothing;
when the name is absent or its length is not positive it fails with
`UID_BADDATA`; otherwise its result is the format of the identifier derived
from the name and the base, the base being the all-zero identifier when the
base text is absent and the parsed base text otherwise. -/
theorem derive_formatted (env : Env) (baseText : Option String) (name : Option (List Nat))
    (namelen : Int)
    (hscan : ∀ old text, (env.slapi_uniqueIDScan old text).1 = UidRc.UID_SUCCESS ∨
      (env.slapi_uniqueIDScan old text).1 = UidRc.UID_BADDATA) :
    let r := slapi_uniqueIDGenerateFromNameString env baseText name namelen
    (r.rc, r.uId) = specDeriveFromNameFormatted env baseText name namelen ∧
    (∀ e ∈ r.trace, e.touchesGeneratorState = false) ∧
    (∀ text, baseText = some text → (env.slapi_uniqueIDScan zeroID text).1 ≠ UidRc.UID_SUCCESS →
      r.rc = UidRc.UID_BADDATA ∧ r.uId = none ∧ deriveCalls r.trace = 0) ∧
    (name = none ∨ namelen ≤ 0 →
      r.rc = UidRc.UID_BADDATA ∧ r.uId = none ∧ deriveCalls r.trace = 0) ∧
    (∀ nm base, name = some nm → 0 < namelen →
      (baseText = none ∧ base = zeroID ∨
        ∃ text, baseText = some text ∧
          env.slapi_uniqueIDScan zeroID text = (UidRc.UID_SUCCESS, base)) →
      (r.rc, r.uId) = env.slapi_uniqueIDFormat (env.uuid_create_from_name base nm namelen) ∧
      deriveCalls r.trace = 1) := by
  intro r
  cases baseText with
  | none =>
    have hr : r = generateFromNameStringRest env zeroID [] name namelen := rfl
    refine ⟨?_, ?_, ?_, ?_, ?_⟩
    · rw [hr, generateFromNameStringRest_spec]
      simp [specDeriveFromNameFormatted, bind, Except.bind]
    · intro e he
      cases name with
      | none =>
        rw [hr, generateFromNameStringRest_bad env zeroID [] none namelen (Or.inl rfl)] at he
        simp at he
      | some nm =>
        by_cases h : namelen ≤ 0
        · rw [hr, generateFromNameStringRest_bad env zeroID [] (some nm) namelen (Or.inr h)] at he
          simp at he
        · rw [hr, generateFromNameStringRest_ok env zeroID [] nm namelen (not_le.mp h)] at he
          simp at he
          rcases he with he | he <;> subst he <;> rfl
    · intro text ht
      cases ht
    · intro h
      rw [hr, generateFromNameStringRest_bad env zeroID [] name namelen h]
      simp [deriveCalls]
    · intro nm base hn hl hb
      subst hn
      rcases hb with ⟨-, hb⟩ | ⟨text, ht, -⟩
      · subst hb
        rw [hr, generateFromNameStringRest_ok env zeroID [] nm namelen hl]
        simp [deriveCalls]
      · cases ht
  | some text =>
    by_cases hs : (env.slapi_uniqueIDScan zeroID text).1 = UidRc.UID_SUCCESS
    · have hr : r = generateFromNameStringRest env (env.slapi_uniqueIDScan zeroID text).2
          [Event.slapi_uniqueIDScan text] name namelen := by
        simp [r, slapi_uniqueIDGenerateFromNameString, hs]
      refine ⟨?_, ?_, ?_, ?_, ?_⟩
      · rw [hr, generateFromNameStringRest_spec]
        simp [specDeriveFromNameFormatted, specParse, hs, bind, Except.bind]
      · intro e he
        cases name with
        | none =>
          rw [hr, generateFromNameStringRest_bad env _ _ none namelen (Or.inl rfl)] at he
          simp at he
          subst he
          rfl
        | some nm =>
          by_cases h : namelen ≤ 0
          · rw [hr, generateFromNameStringRest_bad env _ _ (some nm) namelen (Or.inr h)] at he
            simp at he
            subst he
            rfl
          · rw [hr, generateFromNameStringRest_ok env _ _ nm namelen (not_le.mp h)] at he
            simp at he
            rcases he with he | he | he <;> subst he <;> rfl
      · intro text' ht hne
        cases ht
        exact absurd hs hne
      · intro h
        rw [hr, generateFromNameStringRest_bad env _ _ name namelen h]
        simp [deriveCalls]
      · intro nm base hn hl hb
        subst hn
        rcases hb with ⟨hb, -⟩ | ⟨text', ht, hb⟩
        · cases hb
        · cases ht
          rw [hr, generateFromNameStringRest_ok env _ _ nm namelen hl, hb]
          simp [deriveCalls]
    · have hbad : (env.slapi_uniqueIDScan zeroID text).1 = UidRc.UID_BADDATA := by
        rcases hscan zeroID text with h | h
        · exact absurd h hs
        · exact h
      have hr : r = ⟨UidRc.UID_BADDATA, none, [Event.slapi_uniqueIDScan text]⟩ := by
        simp [r, slapi_uniqueIDGenerateFromNameString, hbad]
      refine ⟨?_, ?_, ?_, ?_, ?_⟩
      · rw [hr]
        simp [specDeriveFromNameFormatted, specParse, hbad, bind, Except.bind]
      · intro e he
        rw [hr] at he
        simp at he
        subst he
        rfl
      · intro text' _ _
        rw [hr]
        simp [deriveCalls]
      · intro _
        rw [hr]
        simp [deriveCalls]
      · intro nm base hn hl hb
        rcases hb with ⟨hb, -⟩ | ⟨text', ht, hb⟩
        · cases hb
        · cases ht
          rw [hb] at hs
          exact absurd rfl hs

/-- The derivation at concrete arguments: base text `1` and a two-byte name give
the text of identifier 3; malformed base text and an empty name give
`UID_BADDATA`. -/
theorem derive_formatted_witness :
    ((slapi_uniqueIDGenerateFromNameString sampleEnv (some "1") (some [97, 98]) 2).rc,
      (slapi_uniqueIDGenerateFromNameString sampleEnv (some "1") (some [97, 98]) 2).uId)
        = (UidRc.UID_SUCCESS, some "3") ∧
    (slapi_uniqueIDGenerateFromNameString sampleEnv (some "zz") (some [97, 98]) 2).rc
        = UidRc.UID_BADDATA ∧
    (slapi_uniqueIDGenerateFromNameString sampleEnv none (some []) 0).rc
        = UidRc.UID_BADDATA := by
  have hscan : ∀ old text, (sampleEnv.slapi_uniqueIDScan old text).1 = UidRc.UID_SUCCESS ∨
      (sampleEnv.slapi_uniqueIDScan old text).1 = UidRc.UID_BADDATA := by
    intro old text
    simp only [sampleEnv]
    split_ifs <;> simp
  have h1 := (derive_formatted sampleEnv (some "1") (some [97, 98]) 2 hscan).2.2.2.2
    [97, 98] 1 rfl (by decide) (Or.inr ⟨"1", rfl, by decide⟩)
  have h2 := (derive_formatted sampleEnv (some "zz") (some [97, 98]) 2 hscan).2.2.1
    "zz" rfl (by decide)
  have h3 := (derive_formatted sampleEnv none (some []) 0 hscan).2.2.2.1 (Or.inr (by decide))
  refine ⟨?_, h2.1, h3.1⟩
  rw [h1.1]
  decide

end UniqueIdGen
